import Mathlib

/-!
Verification of the DMMShield OLED demo command interpreter
(`src/sdk/DMMShieldOLEDDemo/src/dmmcmd.c`).

The module is single-threaded: one poll loop reads at most one line from the
UART, decodes and dispatches it, and then services the repeated-measurement
mode.  We embed the module shallowly: the global mutable variables
(`fRepGetVal`, `fRepGetRaw`, `fRepBlock`, `pszLastErr`, `szMsg`, and the
current-scale state held by the DMM collaborator) become fields of an explicit
state record, each C function becomes a Lean function from state (plus
collaborator results) to state, return code and a trace of observable calls,
and the external collaborators (DMM, CALIB, SERIALNO, UART, ERRORS modules,
whose sources are not part of this repository snapshot) are injected as an
oracle record of result values and message-composition functions.
-/

namespace DMMShield

/- Error codes from errors.h (not part of the snapshot; the numeric values are
   the ones documented in the function header comments of dmmcmd.c). -/
def ERRVAL_SUCCESS : Nat := 0x00
def ERRVAL_DMM_GENERICERROR : Nat := 0xEF
def ERRVAL_CALIB_MISSINGMEASUREMENT : Nat := 0xF0
def ERRVAL_DMM_MEASUREDISPERSION : Nat := 0xF1
def ERRVAL_CMD_VALFORMAT : Nat := 0xF2
/- ERRVAL_EPROM_VERIFY is referenced by dmmcmd.c but its value is not quoted
   in any header comment of the snapshot; the exact value is immaterial to the
   development (it is only compared for equality). -/
def ERRVAL_EPROM_VERIFY : Nat := 0xF3
def ERRVAL_CMD_VALWRONGUNIT : Nat := 0xF4
def ERRVAL_DMM_CFGVERIFY : Nat := 0xF5
def ERRVAL_CMD_WRONGPARAMS : Nat := 0xF9
def ERRVAL_DMM_VALIDDATATIMEOUT : Nat := 0xFA
def ERRVAL_DMM_IDXCONFIG : Nat := 0xFC
def ERRVAL_EPROM_MAGICNO : Nat := 0xFD
def ERRVAL_EPROM_CRC : Nat := 0xFE
def ERRVAL_EPROM_WRTIMEOUT : Nat := 0xFF

/-- Command keys, from dmmcmd.h (`cmd_key_t`). -/
inductive cmd_key_t where
  | CMD_NONE
  | INVALID
  | CMD_Config
  | CMD_CalibP
  | CMD_CalibN
  | CMD_CalibZ
  | CMD_MeasureRep
  | CMD_MeasureStop
  | CMD_MeasureRaw
  | CMD_MeasureAvg
  | CMD_SaveEPROM
  | CMD_VerifyEPROM
  | CMD_ExportCalib
  | CMD_ImportCalib
  | CMD_MeasureForCalibP
  | CMD_MeasureForCalibN
  | CMD_FinalizeCalibP
  | CMD_FinalizeCalibN
  | CMD_RestoreFactCalibs
  | CMD_ReadSerialNo
deriving DecidableEq, Repr

open cmd_key_t

/-- The command table `uartCommands` of dmmcmd.c. -/
def uartCommands : List (String × cmd_key_t) :=
  [("DMMConfig", CMD_Config),
   ("DMMCalibP", CMD_CalibP),
   ("DMMCalibN", CMD_CalibN),
   ("DMMCalibZ", CMD_CalibZ),
   ("DMMMeasureRep", CMD_MeasureRep),
   ("DMMMeasureStop", CMD_MeasureStop),
   ("DMMMeasureRaw", CMD_MeasureRaw),
   ("DMMMeasureAvg", CMD_MeasureAvg),
   ("DMMSaveEPROM", CMD_SaveEPROM),
   ("DMMVerifyEPROM", CMD_VerifyEPROM),
   ("DMMExportCalib", CMD_ExportCalib),
   ("DMMImportCalib", CMD_ImportCalib),
   ("DMMMeasureForCalibP", CMD_MeasureForCalibP),
   ("DMMMeasureForCalibN", CMD_MeasureForCalibN),
   ("DMMFinalizeCalibP", CMD_FinalizeCalibP),
   ("DMMFinalizeCalibN", CMD_FinalizeCalibN),
   ("DMMRestoreFactCalibs", CMD_RestoreFactCalibs),
   ("DMMReadSerialNo", CMD_ReadSerialNo)]

/-- The scale name catalogue `rgScales` of dmmcmd.c, in order. -/
def rgScales : List String :=
  ["Resistance50M", "Resistance5M", "Resistance500k", "Resistance50k",
   "Resistance5k", "Resistance500", "Resistance50",
   "VoltageDC50", "VoltageDC5", "VoltageDC500m", "VoltageDC50m",
   "VoltageAC30", "VoltageAC5", "VoltageAC500m", "VoltageAC50m",
   "CurrentDC5", "CurrentAC5",
   "Continuity", "Diode",
   "CurrentDC500m", "CurrentDC50m", "CurrentDC5m", "CurrentDC500u",
   "CurrentAC500m", "CurrentAC50m", "CurrentAC5m", "CurrentAC500u"]

/-- One `strtok` step: skip leading delimiters; if nothing is left return
none, otherwise return the token (the maximal delimiter-free run) together
with the continuation point (just past the delimiter that ended the token, or
the end of the string). -/
def strtok1 (delims : List Char) (s : List Char) : Option (List Char × List Char) :=
  let s1 := s.dropWhile (fun c => delims.contains c)
  match s1 with
  | [] => none
  | _ =>
    let tok := s1.takeWhile (fun c => !delims.contains c)
    let rest := s1.dropWhile (fun c => !delims.contains c)
    some (tok, rest.drop 1)

/-- Linear search of the command table (the `for` loop of `DMMCMD_CmdDecode`),
first match wins. -/
def cmdLookup (tok : String) : Option cmd_key_t :=
  (uartCommands.find? (fun p => p.1 == tok)).map (fun p => p.2)

/-- Result of `DMMCMD_CmdDecode`: the key, the new content of the last-error
buffer `pszLastErr`, and the remaining input the argument tokenizer
(`DMMCMD_CmdGetNextArg`, i.e. `strtok(NULL, ",")`) continues from. -/
structure DecodeRes where
  key : cmd_key_t
  lastErr : String
  rest : List Char
deriving DecidableEq, Repr

/-- `DMMCMD_CmdDecode`: take the first blank-delimited token; the statement
`pszLastErr[0] = 0` discards the previous diagnostic before the table lookup,
so the result never depends on `prevLastErr`.  A recognized token yields its
key with the diagnostic left empty; an unrecognized token yields `INVALID`
with diagnostic `"Unrecognized command:" ++ token`; a tokenless line yields
`INVALID` with diagnostic `"Empty command"`. -/
def DMMCMD_CmdDecode (prevLastErr : String) (szCmd : List Char) : DecodeRes :=
  match strtok1 [' '] szCmd with
  | some (tok, rest) =>
    match cmdLookup (String.mk tok) with
    | some k => ⟨k, "", rest⟩
    | none => ⟨INVALID, "Unrecognized command:" ++ String.mk tok, rest⟩
  | none => ⟨INVALID, "Empty command", []⟩

/-- Measured values (C `double`): the numeric content is opaque to the
interpreter, which only threads values into the external formatting
collaborator, so we represent them by an abstract token. -/
abbrev Val := Nat

/-- Parsed `float` coefficients, likewise opaque to the interpreter. -/
abbrev FloatV := Nat

/-- The mutable state the interpreter owns or observes: the three repeated-mode
globals, the last-error buffer `pszLastErr`, the message buffer `szMsg`, and —
modelled from the spec, since dmm.c is not part of the snapshot — the
calibration-enable switch set by `DMM_SetUseCalib` and the current scale held
by the measurement collaborator (`none` when no scale is selected,
i.e. `DMM_GetCurrentScale() == -1`). -/
structure CmdState where
  fRepGetVal : Bool
  fRepGetRaw : Bool
  fRepBlock : Bool
  calibEnabled : Bool
  scale : Option Nat
  lastErr : String
  szMsg : String
deriving DecidableEq, Repr

/-- Observable collaborator calls made by a handler, in program order. -/
inductive Event where
  | uartOut : String → Event
  | setUseCalib : Bool → Event
  | getValue : Event
  | setScale : Nat → Event
  | importCoeffs : Int → FloatV → FloatV → Event
  | oled : String → Event
deriving DecidableEq, Repr

/-- External collaborator behaviour injected into one dispatch: results of the
DMM / CALIB / SERIALNO calls a handler may make, the message composer
`ERRORS_GetPrefixedMessageString` (given the error code, the content argument
— `none` models a NULL `char *` — and the current `szMsg`, it yields the new
`szMsg` and its return value), the value formatters, and the `sscanf`
conversions used by `DMMCMD_CmdImportCalib` (`none` models a conversion
failure, i.e. `sscanf` returning 0). -/
structure Oracle where
  composer : Nat → Option String → String → String × Nat
  fmtValue : Val → String
  fmtRaw : Val → String
  fmtDisp : Val → String
  setScaleRes : Nat → Nat
  interpRes : Option String → Nat × Val
  calibPosRes : Val → Bool → String → Nat × Val × Val × String
  calibNegRes : Val → Bool → String → Nat × Val × Val × String
  calibZeroRes : String → Nat × Val × Val × String
  getValueRes : Nat × Val
  avgRes : Nat × Val
  saveRes : Fin 256
  verifyRes : Nat
  exportRes : Nat × String
  importRes : Int → FloatV → FloatV → Nat
  measForPRes : Nat × Val
  measForNRes : Nat × Val
  restoreRes : Nat
  serialRes : Nat × String
  sscanf_d : String → Option Int
  sscanf_f : String → Option FloatV

/-- Result of one handler: the new state, the `u8` return code, and the trace
of observable collaborator calls. -/
structure HResult where
  st : CmdState
  ret : Nat
  out : List Event
deriving DecidableEq, Repr

/-- `DMMCMD_CmdConfig`: linear search of `rgScales` (the `for` loop),
starting at index `i`. -/
def scaleLookup : Nat → List String → String → Option Nat
  | _, [], _ => none
  | i, nm :: rest, arg => if nm == arg then some i else scaleLookup (i + 1) rest arg

/-- The `FAIL` line `DMMCMD_CmdConfig` prints when no scale name matches. -/
def cfgFailMsg (arg : String) : String :=
  "FAIL, Missing valid configuration: \"" ++ arg ++ "\"\r\n"

/-- The `PASS` line `DMMCMD_CmdConfig` prints on a successful selection. -/
def cfgPassMsg (idx : Nat) : String :=
  "PASS, Selected scale index is: " ++ toString idx ++ "\r\n"

/-- `DMMCMD_CmdConfig`: look the argument up in `rgScales`; on a match call
`DMM_SetScale` with the index and report `PASS` (also refreshing the OLED) or
the composed error; with no match print the `FAIL` line and return the
untouched `bErrCode`, which is still `ERRVAL_SUCCESS`. -/
def DMMCMD_CmdConfig (o : Oracle) (arg0 : String) (s : CmdState) : HResult :=
  match scaleLookup 0 rgScales arg0 with
  | some idx =>
    let r := o.setScaleRes idx
    if r = ERRVAL_SUCCESS then
      let m := cfgPassMsg idx
      ⟨{ s with scale := some idx, szMsg := m }, r,
        [Event.setScale idx, Event.oled "No value", Event.uartOut m]⟩
    else
      let c := o.composer r (some "") s.szMsg
      ⟨{ s with szMsg := c.1 }, c.2, [Event.setScale idx, Event.uartOut c.1]⟩
  | none =>
    let m := cfgFailMsg arg0
    ⟨{ s with szMsg := m }, ERRVAL_SUCCESS, [Event.uartOut m]⟩

/-- `DMMCMD_CmdMeasureRep`: arm calibrated streaming, disarm raw streaming,
acknowledge. -/
def DMMCMD_CmdMeasureRep (o : Oracle) (s : CmdState) : HResult :=
  let m := (o.composer ERRVAL_SUCCESS (some "") "Measure repeated").1
  ⟨{ s with fRepGetVal := true, fRepGetRaw := false, szMsg := m },
    ERRVAL_SUCCESS, [Event.uartOut m]⟩

/-- `DMMCMD_CmdMeasureStop`: disarm both streaming flags, acknowledge. -/
def DMMCMD_CmdMeasureStop (o : Oracle) (s : CmdState) : HResult :=
  let m := (o.composer ERRVAL_SUCCESS (some "") "Stop repeated").1
  ⟨{ s with fRepGetVal := false, fRepGetRaw := false, szMsg := m },
    ERRVAL_SUCCESS, [Event.uartOut m]⟩

/-- `DMMCMD_CmdMeasureRaw`: a one-shot raw acquisition — disable calibration,
read one value, unconditionally re-enable calibration, then print the
formatted value or the composed error.  The repeated-mode flags are not
touched. -/
def DMMCMD_CmdMeasureRaw (o : Oracle) (s : CmdState) : HResult :=
  let bErr := o.getValueRes.1
  let v := o.getValueRes.2
  let s2 := { s with calibEnabled := true }
  let m := if bErr = ERRVAL_SUCCESS
           then "Raw Value: " ++ o.fmtValue v ++ "\r\n"
           else (o.composer bErr (some "") s.szMsg).1
  ⟨{ s2 with szMsg := m }, bErr,
    [Event.setUseCalib false, Event.getValue, Event.setUseCalib true, Event.uartOut m]⟩

/-- `DMMCMD_CmdMeasureAvg`. -/
def DMMCMD_CmdMeasureAvg (o : Oracle) (s : CmdState) : HResult :=
  let bErr := o.avgRes.1
  let v := o.avgRes.2
  let m := if bErr = ERRVAL_SUCCESS
           then "Avg. Value: " ++ o.fmtValue v ++ "\r\n"
           else (o.composer bErr (some "") s.szMsg).1
  ⟨{ s with szMsg := m }, bErr, [Event.uartOut m]⟩

/-- Message body shared by the positive/negative calibration commands. -/
def calibDoneMsg (polarity : String) (o : Oracle) (refv mv disp : Val) (lastErr : String) : String :=
  "Calibration on " ++ polarity ++ " done. Reference: " ++ o.fmtValue refv
    ++ ", Measured: " ++ o.fmtValue mv ++ ", Dispersion: " ++ o.fmtDisp disp ++ "%"
    ++ (if lastErr ≠ "" then ", " ++ lastErr else "")

/-- `DMMCMD_CmdCalibP` (preview: `finalize = false`). -/
def DMMCMD_CmdCalibP (o : Oracle) (arg0 : Option String) (s : CmdState) : HResult :=
  let ir := o.interpRes arg0
  if ir.1 = ERRVAL_SUCCESS then
    let cr := o.calibPosRes ir.2 false s.lastErr
    let m0 := if cr.1 = ERRVAL_SUCCESS
              then calibDoneMsg "positive" o ir.2 cr.2.1 cr.2.2.1 cr.2.2.2
              else s.szMsg
    let c := o.composer cr.1 (some "") m0
    ⟨{ s with lastErr := cr.2.2.2, szMsg := c.1 }, cr.1, [Event.uartOut c.1]⟩
  else
    let c := o.composer ir.1 arg0 s.szMsg
    ⟨{ s with szMsg := c.1 }, ir.1, [Event.uartOut c.1]⟩

/-- `DMMCMD_CmdCalibN` (preview: `finalize = false`). -/
def DMMCMD_CmdCalibN (o : Oracle) (arg0 : Option String) (s : CmdState) : HResult :=
  let ir := o.interpRes arg0
  if ir.1 = ERRVAL_SUCCESS then
    let cr := o.calibNegRes ir.2 false s.lastErr
    let m0 := if cr.1 = ERRVAL_SUCCESS
              then calibDoneMsg "negative" o ir.2 cr.2.1 cr.2.2.1 cr.2.2.2
              else s.szMsg
    let c := o.composer cr.1 (some "") m0
    ⟨{ s with lastErr := cr.2.2.2, szMsg := c.1 }, cr.1, [Event.uartOut c.1]⟩
  else
    let c := o.composer ir.1 arg0 s.szMsg
    ⟨{ s with szMsg := c.1 }, ir.1, [Event.uartOut c.1]⟩

/-- `DMMCMD_CmdCalibZ`. -/
def DMMCMD_CmdCalibZ (o : Oracle) (s : CmdState) : HResult :=
  let cr := o.calibZeroRes s.lastErr
  let m0 := if cr.1 = ERRVAL_SUCCESS
            then "Calibration on zero done. Measured Value: " ++ o.fmtValue cr.2.1
                   ++ ", Dispersion: " ++ o.fmtDisp cr.2.2.1 ++ "%"
                   ++ (if cr.2.2.2 ≠ "" then ", " ++ cr.2.2.2 else "")
            else s.szMsg
  let c := o.composer cr.1 (some "") m0
  ⟨{ s with lastErr := cr.2.2.2, szMsg := c.1 }, cr.1, [Event.uartOut c.1]⟩

/-- `DMMCMD_CmdSaveEPROM`: if `CALIB_WriteAllCalibsToEPROM_User` did not
report a write timeout, its `u8` result is the count of rewritten entries and
the handler reports it and returns success; otherwise the timeout error code
is composed and returned. -/
def DMMCMD_CmdSaveEPROM (o : Oracle) (s : CmdState) : HResult :=
  let b := o.saveRes.val
  if b ≠ ERRVAL_EPROM_WRTIMEOUT then
    let m0 := toString b ++ " calibrations written to EPROM"
    let c := o.composer ERRVAL_SUCCESS (some "") m0
    ⟨{ s with szMsg := c.1 }, ERRVAL_SUCCESS, [Event.uartOut c.1]⟩
  else
    let c := o.composer ERRVAL_EPROM_WRTIMEOUT (some "") s.szMsg
    ⟨{ s with szMsg := c.1 }, ERRVAL_EPROM_WRTIMEOUT, [Event.uartOut c.1]⟩

/-- `DMMCMD_CmdVerifyEPROM`. -/
def DMMCMD_CmdVerifyEPROM (o : Oracle) (s : CmdState) : HResult :=
  let b := o.verifyRes
  let bm : Nat × String :=
    if b = ERRVAL_SUCCESS then (b, "EPROM Calibration data is verified")
    else if b = ERRVAL_EPROM_VERIFY then
      (ERRVAL_DMM_GENERICERROR, "EPROM Calibration data mismatch values found")
    else (b, s.szMsg)
  let c := o.composer bm.1 (some "") bm.2
  ⟨{ s with szMsg := c.1 }, bm.1, [Event.uartOut c.1]⟩

/-- `DMMCMD_CmdExportCalib`. -/
def DMMCMD_CmdExportCalib (o : Oracle) (s : CmdState) : HResult :=
  let c := o.composer o.exportRes.1 (some "") "Calibration data is exported"
  ⟨{ s with szMsg := c.1 }, o.exportRes.1,
    [Event.uartOut c.1, Event.uartOut o.exportRes.2]⟩

/-- `DMMCMD_CmdImportCalib`: a NULL among the three arguments yields
`ERRVAL_CMD_WRONGPARAMS`; a failed `sscanf` conversion yields
`ERRVAL_DMM_GENERICERROR` with the respective message; only when all three
parse does the handler call `CALIB_ImportCalibCoefficients`. -/
def DMMCMD_CmdImportCalib (o : Oracle) (arg0 arg1 arg2 : Option String)
    (s : CmdState) : HResult :=
  match arg0, arg1, arg2 with
  | some a0, some a1, some a2 =>
    match o.sscanf_d a0 with
    | none =>
      let m0 := "Invalid value, provide an integer number for the first token, corresponding to scale index"
      let c := o.composer ERRVAL_DMM_GENERICERROR (some "") m0
      ⟨{ s with szMsg := c.1 }, ERRVAL_DMM_GENERICERROR, [Event.uartOut c.1]⟩
    | some idxCfg =>
      match o.sscanf_f a1 with
      | none =>
        let m0 := "Invalid value, provide a float number for the second token, corresponding to Mult. coefficient"
        let c := o.composer ERRVAL_DMM_GENERICERROR (some "") m0
        ⟨{ s with szMsg := c.1 }, ERRVAL_DMM_GENERICERROR, [Event.uartOut c.1]⟩
      | some fValM =>
        match o.sscanf_f a2 with
        | none =>
          let m0 := "Invalid value, provide a float number for the third token, corresponding to Add. coefficient"
          let c := o.composer ERRVAL_DMM_GENERICERROR (some "") m0
          ⟨{ s with szMsg := c.1 }, ERRVAL_DMM_GENERICERROR, [Event.uartOut c.1]⟩
        | some fValA =>
          let b := o.importRes idxCfg fValM fValA
          let c := o.composer b (some "") s.szMsg
          ⟨{ s with szMsg := c.1 }, b,
            [Event.importCoeffs idxCfg fValM fValA, Event.uartOut c.1]⟩
  | _, _, _ =>
    let c := o.composer ERRVAL_CMD_WRONGPARAMS (some "") s.szMsg
    ⟨{ s with szMsg := c.1 }, ERRVAL_CMD_WRONGPARAMS, [Event.uartOut c.1]⟩

/-- `DMMCMD_CmdMeasureForCalibP`. -/
def DMMCMD_CmdMeasureForCalibP (o : Oracle) (s : CmdState) : HResult :=
  let b := o.measForPRes.1
  let m0 := if b = ERRVAL_SUCCESS
            then "Calibration positive measurement done. Measured Value: "
                   ++ o.fmtValue o.measForPRes.2
            else s.szMsg
  let c := o.composer b (some "") m0
  ⟨{ s with szMsg := c.1 }, b, [Event.uartOut c.1]⟩

/-- `DMMCMD_CmdMeasureForCalibN`. -/
def DMMCMD_CmdMeasureForCalibN (o : Oracle) (s : CmdState) : HResult :=
  let b := o.measForNRes.1
  let m0 := if b = ERRVAL_SUCCESS
            then "Calibration negative measurement done. Measured Value: "
                   ++ o.fmtValue o.measForNRes.2
            else s.szMsg
  let c := o.composer b (some "") m0
  ⟨{ s with szMsg := c.1 }, b, [Event.uartOut c.1]⟩

/-- `DMMCMD_CmdFinalizeCalibP` (`finalize = true`). -/
def DMMCMD_CmdFinalizeCalibP (o : Oracle) (arg0 : Option String) (s : CmdState) : HResult :=
  let ir := o.interpRes arg0
  if ir.1 = ERRVAL_SUCCESS then
    let cr := o.calibPosRes ir.2 true s.lastErr
    let m0 := if cr.1 = ERRVAL_SUCCESS
              then calibDoneMsg "positive" o ir.2 cr.2.1 cr.2.2.1 cr.2.2.2
              else s.szMsg
    let c := o.composer cr.1 (some "") m0
    ⟨{ s with lastErr := cr.2.2.2, szMsg := c.1 }, cr.1, [Event.uartOut c.1]⟩
  else
    let c := o.composer ir.1 arg0 s.szMsg
    ⟨{ s with szMsg := c.1 }, ir.1, [Event.uartOut c.1]⟩

/-- `DMMCMD_CmdFinalizeCalibN` (`finalize = true`). -/
def DMMCMD_CmdFinalizeCalibN (o : Oracle) (arg0 : Option String) (s : CmdState) : HResult :=
  let ir := o.interpRes arg0
  if ir.1 = ERRVAL_SUCCESS then
    let cr := o.calibNegRes ir.2 true s.lastErr
    let m0 := if cr.1 = ERRVAL_SUCCESS
              then calibDoneMsg "negative" o ir.2 cr.2.1 cr.2.2.1 cr.2.2.2
              else s.szMsg
    let c := o.composer cr.1 (some "") m0
    ⟨{ s with lastErr := cr.2.2.2, szMsg := c.1 }, cr.1, [Event.uartOut c.1]⟩
  else
    let c := o.composer ir.1 arg0 s.szMsg
    ⟨{ s with szMsg := c.1 }, ir.1, [Event.uartOut c.1]⟩

/-- `DMMCMD_CmdRestoreFactCalib`. -/
def DMMCMD_CmdRestoreFactCalib (o : Oracle) (s : CmdState) : HResult :=
  let c := o.composer o.restoreRes (some "") "Calibration data restored from FACTORY EPROM"
  ⟨{ s with szMsg := c.1 }, o.restoreRes, [Event.uartOut c.1]⟩

/-- `DMMCMD_CmdReadSerialNo`. -/
def DMMCMD_CmdReadSerialNo (o : Oracle) (s : CmdState) : HResult :=
  let b := o.serialRes.1
  let m0 := if b = ERRVAL_SUCCESS
            then "SerialNo = \"" ++ o.serialRes.2 ++ "\""
            else s.szMsg
  let c := o.composer b (some "") m0
  ⟨{ s with szMsg := c.1 }, b, [Event.uartOut c.1]⟩

/-- One `DMMCMD_CmdGetNextArg` call (`strtok(NULL, ",")`) from the tokenizer
continuation `rest`. -/
def nextArg (rest : List Char) : Option String × List Char :=
  match strtok1 [','] rest with
  | some (tok, r) => (some (String.mk tok), r)
  | none => (none, [])

/-- `DMMCMD_ProcessCmd`: route the key to its handler, pulling the arguments
with `DMMCMD_CmdGetNextArg`.  `none` marks the one path whose C behaviour is
undefined: `DMMCMD_CmdConfig` applies `strcmp` to its argument, so dispatching
`CMD_Config` with no argument passes NULL to `strcmp`.  (For
`CMD_ImportCalib` the C evaluation order of the three `DMMCMD_CmdGetNextArg()`
actual parameters is unspecified; we model the left-to-right order.)
`INVALID` and `CMD_NONE` fall into the `default` branch and do nothing.  The
trailing `DelayAprox10Us` pacing delay has no modelled effect. -/
def DMMCMD_ProcessCmd (o : Oracle) (key : cmd_key_t) (rest : List Char)
    (s : CmdState) : Option HResult :=
  match key with
  | CMD_Config =>
    match (nextArg rest).1 with
    | some a => some (DMMCMD_CmdConfig o a s)
    | none => none
  | CMD_CalibP => some (DMMCMD_CmdCalibP o (nextArg rest).1 s)
  | CMD_CalibN => some (DMMCMD_CmdCalibN o (nextArg rest).1 s)
  | CMD_CalibZ => some (DMMCMD_CmdCalibZ o s)
  | CMD_MeasureRep => some (DMMCMD_CmdMeasureRep o s)
  | CMD_MeasureRaw => some (DMMCMD_CmdMeasureRaw o s)
  | CMD_MeasureStop => some (DMMCMD_CmdMeasureStop o s)
  | CMD_MeasureAvg => some (DMMCMD_CmdMeasureAvg o s)
  | CMD_SaveEPROM => some (DMMCMD_CmdSaveEPROM o s)
  | CMD_VerifyEPROM => some (DMMCMD_CmdVerifyEPROM o s)
  | CMD_ExportCalib => some (DMMCMD_CmdExportCalib o s)
  | CMD_ImportCalib =>
    let p0 := nextArg rest
    let p1 := nextArg p0.2
    let p2 := nextArg p1.2
    some (DMMCMD_CmdImportCalib o p0.1 p1.1 p2.1 s)
  | CMD_MeasureForCalibP => some (DMMCMD_CmdMeasureForCalibP o s)
  | CMD_MeasureForCalibN => some (DMMCMD_CmdMeasureForCalibN o s)
  | CMD_FinalizeCalibP => some (DMMCMD_CmdFinalizeCalibP o (nextArg rest).1 s)
  | CMD_FinalizeCalibN => some (DMMCMD_CmdFinalizeCalibN o (nextArg rest).1 s)
  | CMD_RestoreFactCalibs => some (DMMCMD_CmdRestoreFactCalib o s)
  | CMD_ReadSerialNo => some (DMMCMD_CmdReadSerialNo o s)
  | CMD_NONE => some ⟨s, ERRVAL_SUCCESS, []⟩
  | INVALID => some ⟨s, ERRVAL_SUCCESS, []⟩

/-- `DMMCMD_ProcessRepeatedCmd`: when a repeated-mode flag is armed and
`fRepBlock` is clear, acquire one value (with calibration disabled for the
raw stream — and unconditionally re-enabled afterwards), then print either the
formatted value (refreshing the OLED for the calibrated stream), the raw
value, or the composed error.  The repeated-mode flags are read, never
written. -/
def DMMCMD_ProcessRepeatedCmd (o : Oracle) (s : CmdState) : HResult :=
  if (s.fRepGetVal || s.fRepGetRaw) && !s.fRepBlock then
    let pre := (if s.fRepGetRaw then [Event.setUseCalib false] else [])
                 ++ [Event.getValue, Event.setUseCalib true]
    let bErr := o.getValueRes.1
    let v := o.getValueRes.2
    let s2 := { s with calibEnabled := true }
    if bErr = ERRVAL_SUCCESS then
      if s.fRepGetVal then
        let m := "Value: " ++ o.fmtValue v ++ "\r\n"
        ⟨{ s2 with szMsg := m }, ERRVAL_SUCCESS,
          pre ++ [Event.oled (o.fmtValue v), Event.uartOut m]⟩
      else
        let m := "Raw Value: " ++ o.fmtRaw v ++ "\r\n"
        ⟨{ s2 with szMsg := m }, ERRVAL_SUCCESS, pre ++ [Event.uartOut m]⟩
    else
      let c := o.composer bErr (some "") s.szMsg
      ⟨{ s2 with szMsg := c.1 }, c.2, pre ++ [Event.uartOut c.1]⟩
  else
    ⟨s, ERRVAL_SUCCESS, []⟩

/-- `DMMCMD_CheckForCommand`, one poll cycle: if a line was received
(`line = some cmd`), echo it into `szMsg` and over the UART, decode it
(which rewrites `pszLastErr`), dispatch it, assign `fRepBlock = 0`, and then
— in the same cycle — run `DMMCMD_ProcessRepeatedCmd`; with no received line
only the repeated step runs.  `none` propagates the undefined dispatch
path. -/
def DMMCMD_CheckForCommand (oc orr : Oracle) (line : Option (List Char))
    (s : CmdState) : Option (CmdState × List Event) :=
  match line with
  | some cmd =>
    let echo := "Received command: " ++ String.mk cmd ++ "\r\n"
    let d := DMMCMD_CmdDecode s.lastErr cmd
    let s1 : CmdState := { s with szMsg := echo, lastErr := d.lastErr }
    match DMMCMD_ProcessCmd oc d.key d.rest s1 with
    | none => none
    | some r =>
      let s2 := { r.st with fRepBlock := false }
      let rr := DMMCMD_ProcessRepeatedCmd orr s2
      some (rr.st, Event.uartOut echo :: r.out ++ rr.out)
  | none =>
    let rr := DMMCMD_ProcessRepeatedCmd orr s
    some (rr.st, rr.out)

/-- The state after `DMMCMD_Init`: the repeated-mode globals are
zero-initialized; the collaborator state is modelled from the spec (no scale
selected yet, calibration applied by default). -/
def initState : CmdState :=
  { fRepGetVal := false, fRepGetRaw := false, fRepBlock := false,
    calibEnabled := true, scale := none, lastErr := "", szMsg := "" }

/-- One poll-loop transition: some received line (or none) and some
collaborator behaviour drive `DMMCMD_CheckForCommand` to a defined result. -/
def Step (s s' : CmdState) : Prop :=
  ∃ oc orr line r, DMMCMD_CheckForCommand oc orr line s = some r ∧ r.1 = s'

/-- States the poll loop can reach from `initState`. -/
def Reachable (s : CmdState) : Prop :=
  Relation.ReflTransGen Step initState s

/-- A concrete collaborator behaviour used to instantiate universally
quantified theorems on closed inputs. -/
def oracle0 : Oracle :=
  { composer := fun e _ m => (toString e ++ "#" ++ m, e),
    fmtValue := fun v => toString v,
    fmtRaw := fun v => toString v,
    fmtDisp := fun v => toString v,
    setScaleRes := fun _ => ERRVAL_SUCCESS,
    interpRes := fun _ => (ERRVAL_SUCCESS, 0),
    calibPosRes := fun _ _ _ => (ERRVAL_SUCCESS, 0, 0, ""),
    calibNegRes := fun _ _ _ => (ERRVAL_SUCCESS, 0, 0, ""),
    calibZeroRes := fun _ => (ERRVAL_SUCCESS, 0, 0, ""),
    getValueRes := (ERRVAL_SUCCESS, 0),
    avgRes := (ERRVAL_SUCCESS, 0),
    saveRes := ⟨3, by decide⟩,
    verifyRes := ERRVAL_SUCCESS,
    exportRes := (ERRVAL_SUCCESS, "exported"),
    importRes := fun _ _ _ => ERRVAL_SUCCESS,
    measForPRes := (ERRVAL_SUCCESS, 0),
    measForNRes := (ERRVAL_SUCCESS, 0),
    restoreRes := ERRVAL_SUCCESS,
    serialRes := (ERRVAL_SUCCESS, "SN123"),
    sscanf_d := fun t => if t == "7" then some 7 else none,
    sscanf_f := fun t => if t == "1.5" then some 15 else none }

/-- A collaborator behaviour whose acquisition fails with a timeout. -/
def oracleErr : Oracle :=
  { oracle0 with getValueRes := (ERRVAL_DMM_VALIDDATATIMEOUT, 0) }

/-- A state with the calibrated stream armed. -/
def valArmedState : CmdState := { initState with fRepGetVal := true }

/-- A state with the raw-stream flag set (the raw branch of the repeated
step). -/
def rawArmedState : CmdState := { initState with fRepGetRaw := true }

/- ------------------------------------------------------------------ -/
/- Helper lemmas                                                      -/
/- ------------------------------------------------------------------ -/

theorem scaleLookup_eq_none (arg : String) :
    ∀ (i : Nat) (l : List String), arg ∉ l → scaleLookup i l arg = none := by
  intro i l
  induction l generalizing i with
  | nil => intro _; rfl
  | cons a t ih =>
    intro h
    simp only [List.mem_cons, not_or] at h
    have hne : (a == arg) = false := by
      simp only [beq_eq_false_iff_ne, ne_eq]
      exact fun hc => h.1 hc.symm
    simp only [scaleLookup, hne, if_false, Bool.false_eq_true]
    exact ih (i + 1) h.2

theorem processRepeatedCmd_flags (o : Oracle) (s : CmdState) :
    (DMMCMD_ProcessRepeatedCmd o s).st.fRepGetVal = s.fRepGetVal ∧
    (DMMCMD_ProcessRepeatedCmd o s).st.fRepGetRaw = s.fRepGetRaw ∧
    (DMMCMD_ProcessRepeatedCmd o s).st.fRepBlock = s.fRepBlock := by
  unfold DMMCMD_ProcessRepeatedCmd
  split_ifs <;>
    simp [apply_ite HResult.st, apply_ite CmdState.fRepGetVal,
      apply_ite CmdState.fRepGetRaw, apply_ite CmdState.fRepBlock]

theorem processCmd_flags (o : Oracle) (key : cmd_key_t) (rest : List Char)
    (s : CmdState) (r : HResult) (h : DMMCMD_ProcessCmd o key rest s = some r) :
    (r.st.fRepGetVal = s.fRepGetVal ∧ r.st.fRepGetRaw = s.fRepGetRaw) ∨
    (key = CMD_MeasureRep ∧ r.st.fRepGetVal = true ∧ r.st.fRepGetRaw = false) ∨
    (key = CMD_MeasureStop ∧ r.st.fRepGetVal = false ∧ r.st.fRepGetRaw = false) := by
  cases key <;>
    simp only [DMMCMD_ProcessCmd, Option.some.injEq] at h <;>
    try subst h
  case CMD_NONE => simp
  case INVALID => simp
  case CMD_Config =>
    rcases ha : (nextArg rest).1 with _ | a
    · rw [ha] at h; cases h
    · rw [ha] at h
      simp only [Option.some.injEq] at h
      subst h
      left
      unfold DMMCMD_CmdConfig
      split <;>
        simp [apply_ite HResult.st, apply_ite CmdState.fRepGetVal,
          apply_ite CmdState.fRepGetRaw]
  case CMD_CalibP =>
    left; unfold DMMCMD_CmdCalibP
    simp [apply_ite HResult.st, apply_ite CmdState.fRepGetVal, apply_ite CmdState.fRepGetRaw]
  case CMD_CalibN =>
    left; unfold DMMCMD_CmdCalibN
    simp [apply_ite HResult.st, apply_ite CmdState.fRepGetVal, apply_ite CmdState.fRepGetRaw]
  case CMD_CalibZ =>
    left; unfold DMMCMD_CmdCalibZ; simp
  case CMD_MeasureRep =>
    right; left; unfold DMMCMD_CmdMeasureRep; simp
  case CMD_MeasureStop =>
    right; right; unfold DMMCMD_CmdMeasureStop; simp
  case CMD_MeasureRaw =>
    left; unfold DMMCMD_CmdMeasureRaw; simp
  case CMD_MeasureAvg =>
    left; unfold DMMCMD_CmdMeasureAvg; simp
  case CMD_SaveEPROM =>
    left; unfold DMMCMD_CmdSaveEPROM
    simp [apply_ite HResult.st, apply_ite CmdState.fRepGetVal, apply_ite CmdState.fRepGetRaw]
  case CMD_VerifyEPROM =>
    left; unfold DMMCMD_CmdVerifyEPROM; simp
  case CMD_ExportCalib =>
    left; unfold DMMCMD_CmdExportCalib; simp
  case CMD_ImportCalib =>
    left; unfold DMMCMD_CmdImportCalib
    rcases (nextArg rest).1 with _ | a0 <;>
      rcases (nextArg (nextArg rest).2).1 with _ | a1 <;>
      rcases (nextArg (nextArg (nextArg rest).2).2).1 with _ | a2 <;>
      simp <;>
      (try rcases o.sscanf_d a0 with _ | i <;> simp) <;>
      (try rcases o.sscanf_f a1 with _ | m <;> simp) <;>
      (try rcases o.sscanf_f a2 with _ | a <;> simp)
  case CMD_MeasureForCalibP =>
    left; unfold DMMCMD_CmdMeasureForCalibP; simp
  case CMD_MeasureForCalibN =>
    left; unfold DMMCMD_CmdMeasureForCalibN; simp
  case CMD_FinalizeCalibP =>
    left; unfold DMMCMD_CmdFinalizeCalibP
    simp [apply_ite HResult.st, apply_ite CmdState.fRepGetVal, apply_ite CmdState.fRepGetRaw]
  case CMD_FinalizeCalibN =>
    left; unfold DMMCMD_CmdFinalizeCalibN
    simp [apply_ite HResult.st, apply_ite CmdState.fRepGetVal, apply_ite CmdState.fRepGetRaw]
  case CMD_RestoreFactCalibs =>
    left; unfold DMMCMD_CmdRestoreFactCalib; simp
  case CMD_ReadSerialNo =>
    left; unfold DMMCMD_CmdReadSerialNo; simp

/- ------------------------------------------------------------------ -/
/- Claim theorems                                                     -/
/- ------------------------------------------------------------------ -/

/-- C3 (counterexample): the claim says a line with no token yields an
outcome distinct from the `INVALID` result of an unrecognized name; in the
code both paths of `DMMCMD_CmdDecode` return `INVALID` — on the empty line
the returned key is the very same enumerator as for an unknown token. -/
theorem C3_counterexample :
    (DMMCMD_CmdDecode "" []).key = cmd_key_t.INVALID ∧
    (DMMCMD_CmdDecode "" ("Frobnicate".toList)).key = cmd_key_t.INVALID := by
  constructor <;> decide

/-- C3 (amended): for every line whose first blank-delimited token is not one
of the 18 names of the command table, `DMMCMD_CmdDecode` returns `INVALID`
and records the diagnostic naming the token; for a line with no token it also
returns `INVALID`, distinguished only by the recorded diagnostic
`"Empty command"`. -/
theorem C3_decode_unknown_and_empty :
    (∀ (prev : String) (line tok rest : List Char),
        strtok1 [' '] line = some (tok, rest) →
        cmdLookup (String.mk tok) = none →
        DMMCMD_CmdDecode prev line =
          ⟨cmd_key_t.INVALID, "Unrecognized command:" ++ String.mk tok, rest⟩)
    ∧ (∀ (prev : String) (line : List Char),
        strtok1 [' '] line = none →
        DMMCMD_CmdDecode prev line = ⟨cmd_key_t.INVALID, "Empty command", []⟩)
    ∧ uartCommands.length = 18 := by
  refine ⟨?_, ?_, by decide⟩
  · intro prev line tok rest h1 h2
    simp [DMMCMD_CmdDecode, h1, h2]
  · intro prev line h1
    simp [DMMCMD_CmdDecode, h1]

/-- C3 (witness). -/
theorem C3_witness :
    DMMCMD_CmdDecode "stale" ("Frobnicate".toList) =
      ⟨cmd_key_t.INVALID, "Unrecognized command:Frobnicate", []⟩ ∧
    DMMCMD_CmdDecode "stale" [] = ⟨cmd_key_t.INVALID, "Empty command", []⟩ :=
  ⟨C3_decode_unknown_and_empty.1 "stale" ("Frobnicate".toList)
      ("Frobnicate".toList) [] (by decide) (by decide),
   C3_decode_unknown_and_empty.2.1 "stale" [] (by decide)⟩

/-- C8: `DMMCMD_CmdDecode` empties the last-error buffer before the command
table lookup on every input line, so its result — key, recorded diagnostic
and tokenizer continuation — never depends on the previously stored
diagnostic, and whenever a command name matches, the diagnostic left behind
is the empty string. -/
theorem C8_decode_clears_last_error :
    (∀ (prev1 prev2 : String) (line : List Char),
        DMMCMD_CmdDecode prev1 line = DMMCMD_CmdDecode prev2 line)
    ∧ (∀ (prev : String) (line : List Char),
        (DMMCMD_CmdDecode prev line).key ≠ cmd_key_t.INVALID →
        (DMMCMD_CmdDecode prev line).lastErr = "") := by
  constructor
  · intro _ _ _; rfl
  · intro prev line h
    cases h1 : strtok1 [' '] line with
    | none => simp [DMMCMD_CmdDecode, h1] at h
    | some p =>
      obtain ⟨tok, rest⟩ := p
      cases h2 : cmdLookup (String.mk tok) with
      | none => simp [DMMCMD_CmdDecode, h1, h2] at h
      | some k => simp [DMMCMD_CmdDecode, h1, h2]

/-- C8 (witness): a stale diagnostic does not survive into the decode of the
next line. -/
theorem C8_witness :
    (DMMCMD_CmdDecode "stale diagnostic" ("DMMCalibZ".toList)).lastErr = "" ∧
    DMMCMD_CmdDecode "stale diagnostic" ("DMMCalibZ".toList) =
      DMMCMD_CmdDecode "" ("DMMCalibZ".toList) :=
  ⟨C8_decode_clears_last_error.2 "stale diagnostic" ("DMMCalibZ".toList) (by decide),
   C8_decode_clears_last_error.1 "stale diagnostic" "" ("DMMCalibZ".toList)⟩

/-- C7: when `CALIB_WriteAllCalibsToEPROM_User` reports N rewritten entries
(any `u8` other than the write-timeout code), `DMMCMD_CmdSaveEPROM` hands the
composer exactly the message `"N calibrations written to EPROM"` and returns
success; when it reports `ERRVAL_EPROM_WRTIMEOUT`, the handler composes that
error and returns it. -/
theorem C7_save_eprom_report (o : Oracle) (s : CmdState) :
    (o.saveRes.val ≠ ERRVAL_EPROM_WRTIMEOUT →
      (DMMCMD_CmdSaveEPROM o s).ret = ERRVAL_SUCCESS ∧
      (DMMCMD_CmdSaveEPROM o s).out =
        [Event.uartOut (o.composer ERRVAL_SUCCESS (some "")
            (toString o.saveRes.val ++ " calibrations written to EPROM")).1])
    ∧ (o.saveRes.val = ERRVAL_EPROM_WRTIMEOUT →
      (DMMCMD_CmdSaveEPROM o s).ret = ERRVAL_EPROM_WRTIMEOUT ∧
      (DMMCMD_CmdSaveEPROM o s).out =
        [Event.uartOut (o.composer ERRVAL_EPROM_WRTIMEOUT (some "") s.szMsg).1]) := by
  unfold DMMCMD_CmdSaveEPROM
  constructor <;> intro h <;> simp [h]

/-- C7 (witness): with a collaborator that reports 3 rewritten entries the
handler reports `"3 calibrations written to EPROM"` and succeeds. -/
theorem C7_witness :
    (oracle0.saveRes.val ≠ ERRVAL_EPROM_WRTIMEOUT) ∧
    (DMMCMD_CmdSaveEPROM oracle0 initState).ret = ERRVAL_SUCCESS ∧
    (DMMCMD_CmdSaveEPROM oracle0 initState).out =
      [Event.uartOut (oracle0.composer ERRVAL_SUCCESS (some "")
          "3 calibrations written to EPROM").1] :=
  ⟨by decide, ((C7_save_eprom_report oracle0 initState).1 (by decide)).1,
   ((C7_save_eprom_report oracle0 initState).1 (by decide)).2⟩

/-- C10: for every argument that matches no scale-catalogue name,
`DMMCMD_CmdConfig` prints the `FAIL` line, never calls `DMM_SetScale` (the
trace is the single UART output, so the current scale is unchanged), and
still returns `ERRVAL_SUCCESS` — the same return value a successful selection
(e.g. `VoltageDC5` with `DMM_SetScale` succeeding) produces. -/
theorem C10_config_invalid_returns_success (o : Oracle) (s : CmdState)
    (arg : String) (h : arg ∉ rgScales) :
    (DMMCMD_CmdConfig o arg s).ret = ERRVAL_SUCCESS ∧
    (DMMCMD_CmdConfig o arg s).out = [Event.uartOut (cfgFailMsg arg)] ∧
    (DMMCMD_CmdConfig o arg s).st.scale = s.scale ∧
    (o.setScaleRes 8 = ERRVAL_SUCCESS →
      (DMMCMD_CmdConfig o "VoltageDC5" s).ret = ERRVAL_SUCCESS) := by
  have hl := scaleLookup_eq_none arg 0 rgScales h
  have h8 : scaleLookup 0 rgScales "VoltageDC5" = some 8 := by decide
  unfold DMMCMD_CmdConfig
  rw [hl, h8]
  refine ⟨rfl, rfl, rfl, ?_⟩
  intro hs
  simp [hs]

/-- C10 (witness). -/
theorem C10_witness :
    (DMMCMD_CmdConfig oracle0 "NoSuchScale" initState).ret = ERRVAL_SUCCESS ∧
    (DMMCMD_CmdConfig oracle0 "NoSuchScale" initState).out =
      [Event.uartOut (cfgFailMsg "NoSuchScale")] ∧
    (DMMCMD_CmdConfig oracle0 "NoSuchScale" initState).st.scale = initState.scale :=
  ⟨(C10_config_invalid_returns_success oracle0 initState "NoSuchScale" (by decide)).1,
   (C10_config_invalid_returns_success oracle0 initState "NoSuchScale" (by decide)).2.1,
   (C10_config_invalid_returns_success oracle0 initState "NoSuchScale" (by decide)).2.2.1⟩

/-- C4 (counterexample): `VoltageDC5` sits at index 8 of `rgScales` (seven
resistance scales and `VoltageDC50` precede it), so a successful
`DMMConfig VoltageDC5` prints `"PASS, Selected scale index is: 8"` — not the
index-7 line the claim states. -/
theorem C4_counterexample :
    (DMMCMD_CmdConfig oracle0 "VoltageDC5" initState).out =
      [Event.setScale 8, Event.oled "No value",
       Event.uartOut "PASS, Selected scale index is: 8\r\n"] ∧
    ("PASS, Selected scale index is: 8\r\n" : String) ≠
      "PASS, Selected scale index is: 7\r\n" := by
  constructor <;> decide

/-- C4 (amended): the line `DMMConfig VoltageDC5` decodes to `CMD_Config`
with argument `VoltageDC5`; when `DMM_SetScale` succeeds the handler selects
scale index 8 and emits `PASS, Selected scale index is: 8`; for an argument
outside the catalogue (e.g. `BogusScale`) it emits
`FAIL, Missing valid configuration: "..."`, makes no `DMM_SetScale` call and
leaves the current scale unchanged. -/
theorem C4_config_scenario (o : Oracle) (s : CmdState) (arg : String) :
    DMMCMD_CmdDecode s.lastErr ("DMMConfig VoltageDC5".toList) =
      ⟨cmd_key_t.CMD_Config, "", "VoltageDC5".toList⟩
    ∧ (o.setScaleRes 8 = ERRVAL_SUCCESS →
        DMMCMD_CmdConfig o "VoltageDC5" s =
          ⟨{ s with scale := some 8, szMsg := cfgPassMsg 8 }, ERRVAL_SUCCESS,
            [Event.setScale 8, Event.oled "No value", Event.uartOut (cfgPassMsg 8)]⟩)
    ∧ (arg ∉ rgScales →
        DMMCMD_CmdConfig o arg s =
          ⟨{ s with szMsg := cfgFailMsg arg }, ERRVAL_SUCCESS,
            [Event.uartOut (cfgFailMsg arg)]⟩)
    ∧ cfgPassMsg 8 = "PASS, Selected scale index is: 8\r\n"
    ∧ cfgFailMsg "BogusScale" = "FAIL, Missing valid configuration: \"BogusScale\"\r\n" := by
  have h8 : scaleLookup 0 rgScales "VoltageDC5" = some 8 := by decide
  refine ⟨by rfl, ?_, ?_, by decide, by decide⟩
  · intro hs
    unfold DMMCMD_CmdConfig
    rw [h8]
    simp [hs, cfgPassMsg]
  · intro h
    have hl := scaleLookup_eq_none arg 0 rgScales h
    unfold DMMCMD_CmdConfig
    rw [hl]

/-- C4 (witness). -/
theorem C4_witness :
    DMMCMD_CmdConfig oracle0 "VoltageDC5" initState =
      ⟨{ initState with scale := some 8, szMsg := cfgPassMsg 8 }, ERRVAL_SUCCESS,
        [Event.setScale 8, Event.oled "No value", Event.uartOut (cfgPassMsg 8)]⟩ ∧
    DMMCMD_CmdConfig oracle0 "BogusScale" initState =
      ⟨{ initState with szMsg := cfgFailMsg "BogusScale" }, ERRVAL_SUCCESS,
        [Event.uartOut (cfgFailMsg "BogusScale")]⟩ :=
  ⟨(C4_config_scenario oracle0 initState "BogusScale").2.1 (by decide),
   (C4_config_scenario oracle0 initState "BogusScale").2.2.1 (by decide)⟩

/-- C9: `DMMCMD_CmdImportCalib` with any of the three arguments missing
(NULL) returns `ERRVAL_CMD_WRONGPARAMS`, and with an argument that fails its
`sscanf` conversion returns `ERRVAL_DMM_GENERICERROR` with the respective
diagnostic; in all these cases the trace is the single composed UART line, so
`CALIB_ImportCalibCoefficients` is never called and no coefficient-table
entry is modified. -/
theorem C9_import_arg_validation (o : Oracle) (s : CmdState) :
    (∀ a0 a1 a2 : Option String, a0 = none ∨ a1 = none ∨ a2 = none →
      (DMMCMD_CmdImportCalib o a0 a1 a2 s).ret = ERRVAL_CMD_WRONGPARAMS ∧
      (DMMCMD_CmdImportCalib o a0 a1 a2 s).out =
        [Event.uartOut (o.composer ERRVAL_CMD_WRONGPARAMS (some "") s.szMsg).1])
    ∧ (∀ x y z : String,
        (o.sscanf_d x = none →
          (DMMCMD_CmdImportCalib o (some x) (some y) (some z) s).ret =
            ERRVAL_DMM_GENERICERROR ∧
          (DMMCMD_CmdImportCalib o (some x) (some y) (some z) s).out =
            [Event.uartOut (o.composer ERRVAL_DMM_GENERICERROR (some "")
              "Invalid value, provide an integer number for the first token, corresponding to scale index").1])
        ∧ (∀ i, o.sscanf_d x = some i → o.sscanf_f y = none →
          (DMMCMD_CmdImportCalib o (some x) (some y) (some z) s).ret =
            ERRVAL_DMM_GENERICERROR ∧
          (DMMCMD_CmdImportCalib o (some x) (some y) (some z) s).out =
            [Event.uartOut (o.composer ERRVAL_DMM_GENERICERROR (some "")
              "Invalid value, provide a float number for the second token, corresponding to Mult. coefficient").1])
        ∧ (∀ i m, o.sscanf_d x = some i → o.sscanf_f y = some m →
            o.sscanf_f z = none →
          (DMMCMD_CmdImportCalib o (some x) (some y) (some z) s).ret =
            ERRVAL_DMM_GENERICERROR ∧
          (DMMCMD_CmdImportCalib o (some x) (some y) (some z) s).out =
            [Event.uartOut (o.composer ERRVAL_DMM_GENERICERROR (some "")
              "Invalid value, provide a float number for the third token, corresponding to Add. coefficient").1])) := by
  constructor
  · intro a0 a1 a2 h
    cases a0 <;> cases a1 <;> cases a2 <;>
      simp [DMMCMD_CmdImportCalib] <;> simp_all
  · intro x y z
    refine ⟨?_, ?_, ?_⟩
    · intro h0
      simp [DMMCMD_CmdImportCalib, h0]
    · intro i h0 h1
      simp [DMMCMD_CmdImportCalib, h0, h1]
    · intro i m h0 h1 h2
      simp [DMMCMD_CmdImportCalib, h0, h1, h2]

/-- C9 (witness): with `oracle0` the string `"x"` fails both conversions and
a NULL first argument is rejected. -/
theorem C9_witness :
    ((DMMCMD_CmdImportCalib oracle0 none (some "1.5") (some "1.5") initState).ret =
      ERRVAL_CMD_WRONGPARAMS) ∧
    ((DMMCMD_CmdImportCalib oracle0 (some "x") (some "1.5") (some "1.5") initState).ret =
      ERRVAL_DMM_GENERICERROR) :=
  ⟨((C9_import_arg_validation oracle0 initState).1 none (some "1.5") (some "1.5")
      (Or.inl rfl)).1,
   (((C9_import_arg_validation oracle0 initState).2 "x" "1.5" "1.5").1 (by decide)).1⟩

/-- C5: every raw acquisition re-enables calibration on every path —
`DMMCMD_CmdMeasureRaw` always ends with `calibEnabled` true and its trace
starts `SetUseCalib(0); DGetValue; SetUseCalib(1)` whatever the acquisition
outcome; the raw branch of `DMMCMD_ProcessRepeatedCmd` (raw flag armed, not
blocked) does the same. -/
theorem C5_raw_reenables_calibration (o : Oracle) (s : CmdState) :
    ((DMMCMD_CmdMeasureRaw o s).st.calibEnabled = true ∧
      (DMMCMD_CmdMeasureRaw o s).out.take 3 =
        [Event.setUseCalib false, Event.getValue, Event.setUseCalib true])
    ∧ (s.fRepGetRaw = true → s.fRepBlock = false →
        (DMMCMD_ProcessRepeatedCmd o s).st.calibEnabled = true ∧
        (DMMCMD_ProcessRepeatedCmd o s).out.take 3 =
          [Event.setUseCalib false, Event.getValue, Event.setUseCalib true]) := by
  constructor
  · unfold DMMCMD_CmdMeasureRaw
    constructor <;> simp
  · intro h1 h2
    unfold DMMCMD_ProcessRepeatedCmd
    simp only [h1, h2, Bool.or_true, Bool.not_false, Bool.and_self, if_true]
    split_ifs <;> simp [apply_ite HResult.st, apply_ite CmdState.calibEnabled,
      apply_ite HResult.out]

/-- C5 (witness): with the raw flag armed and a failing acquisition,
calibration still ends re-enabled. -/
theorem C5_witness :
    (DMMCMD_CmdMeasureRaw oracleErr initState).st.calibEnabled = true ∧
    (DMMCMD_ProcessRepeatedCmd oracleErr rawArmedState).st.calibEnabled = true :=
  ⟨(C5_raw_reenables_calibration oracleErr initState).1.1,
   ((C5_raw_reenables_calibration oracleErr rawArmedState).2 (by decide) (by decide)).1⟩

/-- C6: when the repeated-mode production step runs (a flag armed, not
blocked) and the acquisition fails, the step emits the composed error message
as its final UART line and leaves both repeated-mode flags unchanged; and
across the whole dispatcher, a command that changes either repeated-mode flag
can only be `DMMMeasureStop`, `DMMMeasureRep` or `DMMMeasureRaw` (indeed
`DMMCMD_CmdMeasureRaw` changes neither). -/
theorem C6_errors_do_not_stop_streaming (o : Oracle) (s : CmdState) :
    ((s.fRepGetVal || s.fRepGetRaw) = true → s.fRepBlock = false →
      o.getValueRes.1 ≠ ERRVAL_SUCCESS →
      (DMMCMD_ProcessRepeatedCmd o s).st.fRepGetVal = s.fRepGetVal ∧
      (DMMCMD_ProcessRepeatedCmd o s).st.fRepGetRaw = s.fRepGetRaw ∧
      (∃ l, (DMMCMD_ProcessRepeatedCmd o s).out =
        l ++ [Event.uartOut (o.composer o.getValueRes.1 (some "") s.szMsg).1]))
    ∧ (∀ (key : cmd_key_t) (rest : List Char) (r : HResult),
        DMMCMD_ProcessCmd o key rest s = some r →
        (r.st.fRepGetVal ≠ s.fRepGetVal ∨ r.st.fRepGetRaw ≠ s.fRepGetRaw) →
        key = CMD_MeasureStop ∨ key = CMD_MeasureRep ∨ key = CMD_MeasureRaw) := by
  constructor
  · intro h1 h2 h3
    unfold DMMCMD_ProcessRepeatedCmd
    simp only [h1, h2, Bool.not_false, Bool.and_self, if_true, h3, if_false]
    refine ⟨by simp, by simp, ?_⟩
    split_ifs <;> exact ⟨_, rfl⟩
  · intro key rest r hp hch
    rcases processCmd_flags o key rest s r hp with h | h | h
    · exact absurd h (by tauto)
    · exact Or.inr (Or.inl h.1)
    · exact Or.inl h.1

/-- C6 (witness): a timed-out acquisition leaves the calibrated stream
armed. -/
theorem C6_witness :
    (DMMCMD_ProcessRepeatedCmd oracleErr valArmedState).st.fRepGetVal = true ∧
    (DMMCMD_ProcessRepeatedCmd oracleErr valArmedState).st.fRepGetRaw = false :=
  ⟨((C6_errors_do_not_stop_streaming oracleErr valArmedState).1
      (by decide) (by decide) (by decide)).1.trans (by decide),
   ((C6_errors_do_not_stop_streaming oracleErr valArmedState).1
      (by decide) (by decide) (by decide)).2.1.trans (by decide)⟩

theorem step_flag_cases {s s' : CmdState} (h : Step s s') :
    (s'.fRepGetVal = s.fRepGetVal ∧ s'.fRepGetRaw = s.fRepGetRaw) ∨
    (s'.fRepGetVal = true ∧ s'.fRepGetRaw = false) ∨
    (s'.fRepGetVal = false ∧ s'.fRepGetRaw = false) := by
  obtain ⟨oc, orr, line, r, hck, rfl⟩ := h
  cases line with
  | none =>
    simp only [DMMCMD_CheckForCommand, Option.some.injEq] at hck
    subst hck
    obtain ⟨h1, h2, _⟩ := processRepeatedCmd_flags orr s
    exact Or.inl ⟨h1, h2⟩
  | some cmd =>
    simp only [DMMCMD_CheckForCommand] at hck
    rcases hpc : DMMCMD_ProcessCmd oc (DMMCMD_CmdDecode s.lastErr cmd).key
        (DMMCMD_CmdDecode s.lastErr cmd).rest
        { s with szMsg := "Received command: " ++ String.mk cmd ++ "\r\n",
                 lastErr := (DMMCMD_CmdDecode s.lastErr cmd).lastErr }
      with _ | pr
    · rw [hpc] at hck; cases hck
    · rw [hpc] at hck
      simp only [Option.some.injEq] at hck
      subst hck
      obtain ⟨h1, h2, _⟩ :=
        processRepeatedCmd_flags orr { pr.st with fRepBlock := false }
      rcases processCmd_flags oc _ _ _ pr hpc with h | h | h
      · exact Or.inl ⟨by rw [h1]; exact h.1, by rw [h2]; exact h.2⟩
      · exact Or.inr (Or.inl ⟨by rw [h1]; exact h.2.1, by rw [h2]; exact h.2.2⟩)
      · exact Or.inr (Or.inr ⟨by rw [h1]; exact h.2.1, by rw [h2]; exact h.2.2⟩)

/-- C1 (amended): in every state the poll loop can reach, at most one of the
two repeated-mode flags is armed; `DMMCMD_CmdMeasureRep` sets the calibrated
flag and clears the raw flag; `DMMCMD_CmdMeasureStop` clears both;
`DMMCMD_CmdMeasureRaw`, a one-shot acquisition, leaves both flags exactly as
they were; consequently running `DMMMeasureRep` then `DMMMeasureRaw` from any
starting state leaves exactly the calibrated flag armed and the raw flag
disarmed. -/
theorem C1_flag_discipline :
    (∀ s, Reachable s → ¬(s.fRepGetVal = true ∧ s.fRepGetRaw = true))
    ∧ (∀ (o : Oracle) (s : CmdState),
        (DMMCMD_CmdMeasureRep o s).st.fRepGetVal = true ∧
        (DMMCMD_CmdMeasureRep o s).st.fRepGetRaw = false)
    ∧ (∀ (o : Oracle) (s : CmdState),
        (DMMCMD_CmdMeasureStop o s).st.fRepGetVal = false ∧
        (DMMCMD_CmdMeasureStop o s).st.fRepGetRaw = false)
    ∧ (∀ (o : Oracle) (s : CmdState),
        (DMMCMD_CmdMeasureRaw o s).st.fRepGetVal = s.fRepGetVal ∧
        (DMMCMD_CmdMeasureRaw o s).st.fRepGetRaw = s.fRepGetRaw)
    ∧ (∀ (o1 o2 : Oracle) (s : CmdState),
        (DMMCMD_CmdMeasureRaw o2 (DMMCMD_CmdMeasureRep o1 s).st).st.fRepGetVal = true ∧
        (DMMCMD_CmdMeasureRaw o2 (DMMCMD_CmdMeasureRep o1 s).st).st.fRepGetRaw = false) := by
  refine ⟨?_, ?_, ?_, ?_, ?_⟩
  · intro s h
    induction h with
    | refl => simp [initState]
    | tail _ hstep ih =>
      rcases step_flag_cases hstep with h | h | h
      · rw [h.1, h.2]; exact ih
      · rw [h.1, h.2]; simp
      · rw [h.1, h.2]; simp
  · intro o s; exact ⟨rfl, rfl⟩
  · intro o s; exact ⟨rfl, rfl⟩
  · intro o s; exact ⟨rfl, rfl⟩
  · intro o1 o2 s; exact ⟨rfl, rfl⟩

/-- C1 (counterexample): running `DMMMeasureRep` then `DMMMeasureRaw` does
NOT leave the raw flag armed with the calibrated flag disarmed —
`DMMCMD_CmdMeasureRaw` is a one-shot that never touches the flags, so the
calibrated flag from `DMMMeasureRep` stays armed. -/
theorem C1_counterexample :
    ¬((DMMCMD_CmdMeasureRaw oracle0 (DMMCMD_CmdMeasureRep oracle0 initState).st).st.fRepGetRaw = true ∧
      (DMMCMD_CmdMeasureRaw oracle0 (DMMCMD_CmdMeasureRep oracle0 initState).st).st.fRepGetVal = false) := by
  decide

/-- C1 (witness). -/
theorem C1_witness :
    ¬(initState.fRepGetVal = true ∧ initState.fRepGetRaw = true) ∧
    (DMMCMD_CmdMeasureRep oracle0 initState).st.fRepGetVal = true ∧
    (DMMCMD_CmdMeasureRaw oracle0 (DMMCMD_CmdMeasureRep oracle0 initState).st).st.fRepGetVal = true :=
  ⟨C1_flag_discipline.1 initState Relation.ReflTransGen.refl,
   (C1_flag_discipline.2.1 oracle0 initState).1,
   (C1_flag_discipline.2.2.2.2 oracle0 oracle0 initState).1⟩

/-- C2 (amended): `fRepBlock` is initialized to 0 and the only assignment to
it in the module is the `fRepBlock = 0` after command processing, so it never
suppresses anything: in every poll cycle that processed a received line the
repeated-mode production step still runs, in that same cycle, on the
post-command state with `fRepBlock` cleared — and whenever a repeated-mode
flag is armed that step appends its own output line right after the command's
response. -/
theorem C2_no_block_suppression :
    (∀ (oc orr : Oracle) (line : List Char) (s : CmdState) (pr : HResult),
        DMMCMD_ProcessCmd oc (DMMCMD_CmdDecode s.lastErr line).key
            (DMMCMD_CmdDecode s.lastErr line).rest
            { s with szMsg := "Received command: " ++ String.mk line ++ "\r\n",
                     lastErr := (DMMCMD_CmdDecode s.lastErr line).lastErr } = some pr →
        DMMCMD_CheckForCommand oc orr (some line) s =
          some ((DMMCMD_ProcessRepeatedCmd orr { pr.st with fRepBlock := false }).st,
            Event.uartOut ("Received command: " ++ String.mk line ++ "\r\n") :: pr.out
              ++ (DMMCMD_ProcessRepeatedCmd orr { pr.st with fRepBlock := false }).out))
    ∧ (∀ (o : Oracle) (s : CmdState),
        (s.fRepGetVal || s.fRepGetRaw) = true → s.fRepBlock = false →
        ∃ l m, (DMMCMD_ProcessRepeatedCmd o s).out = l ++ [Event.uartOut m]) := by
  constructor
  · intro oc orr line s pr h
    simp only [DMMCMD_CheckForCommand]
    rw [h]
  · intro o s h1 h2
    unfold DMMCMD_ProcessRepeatedCmd
    simp only [h1, h2, Bool.not_false, Bool.and_self, if_true]
    split_ifs
    · exact ⟨[Event.setUseCalib false, Event.getValue, Event.setUseCalib true,
               Event.oled (o.fmtValue o.getValueRes.2)],
             "Value: " ++ o.fmtValue o.getValueRes.2 ++ "\r\n", by simp⟩
    · exact ⟨[Event.getValue, Event.setUseCalib true,
               Event.oled (o.fmtValue o.getValueRes.2)],
             "Value: " ++ o.fmtValue o.getValueRes.2 ++ "\r\n", by simp⟩
    · exact ⟨[Event.setUseCalib false, Event.getValue, Event.setUseCalib true],
             "Raw Value: " ++ o.fmtRaw o.getValueRes.2 ++ "\r\n", by simp⟩
    · exact ⟨[Event.getValue, Event.setUseCalib true],
             "Raw Value: " ++ o.fmtRaw o.getValueRes.2 ++ "\r\n", by simp⟩
    · exact ⟨[Event.setUseCalib false, Event.getValue, Event.setUseCalib true],
             (o.composer o.getValueRes.1 (some "") s.szMsg).1, by simp⟩
    · exact ⟨[Event.getValue, Event.setUseCalib true],
             (o.composer o.getValueRes.1 (some "") s.szMsg).1, by simp⟩

/-- C2 (counterexample): a concrete cycle in which a command line is
processed while the calibrated stream is armed: the command's own response
(`SerialNo = ...`) is immediately followed, in the same cycle, by the
repeated-mode output line `Value: 0` — nothing suppresses the repeated step
after a command. -/
theorem C2_counterexample :
    DMMCMD_CheckForCommand oracle0 oracle0 (some ("DMMReadSerialNo".toList)) valArmedState =
      some ({ fRepGetVal := true, fRepGetRaw := false, fRepBlock := false,
              calibEnabled := true, scale := none, lastErr := "",
              szMsg := "Value: 0\r\n" },
        [Event.uartOut "Received command: DMMReadSerialNo\r\n",
         Event.uartOut "0#SerialNo = \"SN123\"",
         Event.getValue, Event.setUseCalib true, Event.oled "0",
         Event.uartOut "Value: 0\r\n"]) := by
  decide

/-- C2 (witness): the cycle `DMMMeasureAvg` while the calibrated stream is
armed — the averaged reading's response is followed in the same cycle by a
streamed value line. -/
theorem C2_witness :
    DMMCMD_CheckForCommand oracle0 oracle0 (some ("DMMMeasureAvg".toList)) valArmedState =
      some ({ fRepGetVal := true, fRepGetRaw := false, fRepBlock := false,
              calibEnabled := true, scale := none, lastErr := "",
              szMsg := "Value: 0\r\n" },
        [Event.uartOut "Received command: DMMMeasureAvg\r\n",
         Event.uartOut "Avg. Value: 0\r\n",
         Event.getValue, Event.setUseCalib true, Event.oled "0",
         Event.uartOut "Value: 0\r\n"]) :=
  (C2_no_block_suppression.1 oracle0 oracle0 ("DMMMeasureAvg".toList) valArmedState
      (DMMCMD_CmdMeasureAvg oracle0
        { valArmedState with
            szMsg := "Received command: DMMMeasureAvg\r\n", lastErr := "" })
      (by decide)).trans (by decide)

end DMMShield
